import Mathlib

/-!
Shallow embedding of the attraction-retrieval engine of
`src/modules/rag_engine.py` (the CORE of the travel-agent spec), together
with theorems settling the spec claims about it.

Modelling conventions:
* Python floats are carried opaquely: the embedded fragment never performs
  floating-point arithmetic on vector components (the only numeric use,
  faiss' L2 ranking, lives inside the external faiss library and is
  abstracted as a ranking), so components are represented by `ℚ`.
* The file system is explicit state (`FS`); a persisted artifact is either
  absent, present-but-corrupt, or present with parsed content.
* External collaborators (OpenAI embedding provider, numpy RNG, faiss) are
  parameters: the provider is a function from batch number and batch to a
  result, the RNG is a stream of scalars, and faiss' nearest-neighbour
  order is a ranking of the stored rows.  faiss `Index.search` pads its
  result with `-1` when the index holds fewer rows than requested, which
  is modelled in `faissSearch`.
* Exceptions are `Except`; Python's `return None` is `Except.ok none`.
* The in-place mutation of the caller's record dictionaries performed by
  `build_embeddings` (`item['city'] = entry['city']`) is modelled by
  explicit state passing: the build returns the caller's entry list as it
  stands after the call.
-/

deriving instance DecidableEq for Except

namespace RagEngine

/-- Vector components; Python floats carried opaquely (no float arithmetic
occurs in the embedded fragment). -/
abbrev Scalar := ℚ

/-- An embedding vector (a row of the persisted matrix). -/
abbrev Vec := List Scalar

/-- A raw attraction record as found in `attractions.json` / persisted in
`META_FILE`.  Fields are the ones `rag_engine.py` reads (`item.get(...)`)
or writes (`item['city'] = ...`); an absent dictionary key is `none`. -/
structure RawItem where
  name : Option String := none
  description : Option String := none
  category : Option String := none
  rating : Option String := none
  reviews : Option String := none
  city : Option String := none
  deriving Repr, DecidableEq

/-- A normalized entry as produced by `load_and_normalize_data`:
`{"city": city, "name": name, "text": text, "meta": item}`. -/
structure Entry where
  city : String
  name : String
  text : String
  meta : RawItem
  deriving Repr, DecidableEq

/-- `item.get(key, "")` for the optional fields. -/
def getS (o : Option String) : String := o.getD ""

/-- Python `str.lower()`, modelled over the character list (Lean's
built-in `String.toLower` does not reduce in the kernel). -/
def strLower (s : String) : String := ⟨s.data.map Char.toLower⟩

/-- Python `str.strip()`: drop leading and trailing whitespace. -/
def strTrim (s : String) : String :=
  ⟨((s.data.dropWhile Char.isWhitespace).reverse.dropWhile Char.isWhitespace).reverse⟩

/-- The unified descriptive text built by `load_and_normalize_data`:
`f"{name}. {desc} {category} Rated {rating} with {reviews} reviews. Located in {city}."`,
then `.strip()`. -/
def descriptiveText (city : String) (item : RawItem) : String :=
  strTrim (getS item.name ++ ". " ++ getS item.description ++ " " ++ getS item.category ++
    " Rated " ++ getS item.rating ++ " with " ++ getS item.reviews ++
    " reviews. Located in " ++ city ++ ".")

/-- The normalization loop of `load_and_normalize_data`: for each city (in
dictionary order) and each attraction, one `Entry`. -/
def normalizeData (data : List (String × List RawItem)) : List Entry :=
  data.flatMap fun cityAttractions =>
    cityAttractions.2.map fun item =>
      { city := cityAttractions.1
        name := getS item.name
        text := descriptiveText cityAttractions.1 item
        meta := item }

/-- State of the attractions source file (`CACHE_FILE`): missing, present
but unreadable/unparsable, or readable JSON `city → [record]`. -/
inductive SourceFile where
  | missing : SourceFile
  | unreadable : SourceFile
  | ok : List (String × List RawItem) → SourceFile
  deriving Repr, DecidableEq

/-- `load_and_normalize_data`: a missing file returns `[]` (soft failure);
an existing file is opened and `json.load`-ed with no exception handler,
so an unreadable/unparsable file raises. -/
def load_and_normalize_data (src : SourceFile) : Except String (List Entry) :=
  match src with
  | .missing => .ok []
  | .unreadable => .error "JSONDecodeError"
  | .ok data => .ok (normalizeData data)

/-- A persisted artifact on disk: either parses or is corrupt. -/
inductive DiskFile (α : Type) where
  | corrupt : DiskFile α
  | ok : α → DiskFile α
  deriving Repr, DecidableEq

/-- The three persisted index artifacts (`EMBEDDINGS_FILE`, `INDEX_FILE`,
`META_FILE`); `none` is a missing file.  The faiss index structure is
modelled by the list of rows it holds. -/
structure FS where
  embFile : Option (DiskFile (List Vec))
  idxFile : Option (DiskFile (List Vec))
  metaFile : Option (DiskFile (List RawItem))
  deriving Repr, DecidableEq

/-- Reading a persisted artifact (`np.load` / `faiss.read_index` /
`json.load`): raises on a missing or corrupt file. -/
def readDisk {α : Type} (f : Option (DiskFile α)) : Except String α :=
  match f with
  | none => .error "FileNotFoundError"
  | some .corrupt => .error "CorruptFile"
  | some (.ok a) => .ok a

/-- `_is_index_complete`: all three artifact files exist, `INDEX_FILE`
reads back (a read failure is caught and yields `False`), and the index's
`ntotal` equals the current entry count.  The embeddings and metadata
files are only tested for existence, never read. -/
def is_index_complete (fs : FS) (entries : List Entry) : Bool :=
  if fs.embFile.isSome && fs.idxFile.isSome && fs.metaFile.isSome then
    match fs.idxFile with
    | some (.ok v) => v.length == entries.length
    | _ => false
  else false

/-- Modelled from the spec: `load()` (§4.3 Index Store) returns the index
structure and metadata list, or a "not available" signal on any missing or
corrupt artifact, and never raises.  No such function exists in the
source; it is used to compare `_is_index_complete` with the spec's
`isComplete` and to exhibit torn artifact states. -/
def load_spec (fs : FS) : Option (List Vec × List RawItem) :=
  match fs.embFile, fs.idxFile, fs.metaFile with
  | some (.ok _), some (.ok idx), some (.ok meta) => some (idx, meta)
  | _, _, _ => none

/-- The batching loop of `build_embeddings`:
`for i in range(0, len(texts), 50): batch = texts[i:i+50]`. -/
def chunks50 (texts : List String) : List (List String) :=
  match texts with
  | [] => []
  | t :: ts => (t :: ts).take 50 :: chunks50 ((t :: ts).drop 50)
termination_by texts.length
decreasing_by simp; omega

/-- `np.random.rand(1536)` at draw position `p` of the RNG stream `rng`
(the unseeded numpy global generator, modelled as a stream of scalars). -/
def randVec (rng : Nat → Scalar) (p : Nat) : Vec :=
  (List.range 1536).map fun j => rng (p * 1536 + j)

/-- The online embedding loop: call the provider on each 50-batch in
order, concatenating the results; any provider exception makes the whole
function return `None` (no partial list). -/
def embedBatches (provider : Nat → List String → Except String (List Vec)) :
    Nat → List (List String) → Option (List Vec)
  | _, [] => some []
  | j, b :: bs =>
    match provider j b with
    | .error _ => none
    | .ok vs =>
      match embedBatches provider (j + 1) bs with
      | none => none
      | some rest => some (vs ++ rest)

/-- Whether a provider call raised. -/
def isErr {ε α : Type} (x : Except ε α) : Bool :=
  match x with
  | .error _ => true
  | .ok _ => false

/-- `item['city'] = entry['city']` on a record dictionary. -/
def setCity (item : RawItem) (city : String) : RawItem := { item with city := some city }

/-- Failure points injectable into the persist phase of
`build_embeddings`: an exception raised at `np.save`, at
`faiss.write_index`, or at the metadata write (e.g. the `open` call),
each before the corresponding file's content is replaced. -/
inductive WritePoint where
  | atSaveEmbeddings : WritePoint
  | atWriteIndex : WritePoint
  | atWriteMeta : WritePoint
  deriving Repr, DecidableEq

/-- Outcome of `build_embeddings`: the returned value or raised exception
(`.ok none` is Python's `return None`), the file system afterwards, and
the caller's entry list afterwards (mutated in place by
`item['city'] = entry['city']`). -/
structure BuildResult where
  result : Except String (Option (List Vec))
  fs : FS
  entries : List Entry
  deriving Repr

/-- `build_embeddings(entries)`.  Empty input returns `None`.  Offline
mode draws stand-in vectors from the RNG stream; online mode runs the
50-batch provider loop, returning `None` on any provider error.  Then,
sequentially and in place: `np.save(EMBEDDINGS_FILE)`, build + write the
faiss index, mutate each entry's metadata with its city, and
`json.dump` the metadata.  `failAt` injects an exception at one of the
three write steps. -/
def build_embeddings (offline : Bool)
    (provider : Nat → List String → Except String (List Vec))
    (rng : Nat → Scalar) (failAt : Option WritePoint)
    (fs : FS) (entries : List Entry) : BuildResult :=
  if entries.isEmpty then ⟨.ok none, fs, entries⟩
  else
    let texts := entries.map (·.text)
    let embedded : Option (List Vec) :=
      if offline then some ((List.range texts.length).map (randVec rng))
      else embedBatches provider 0 (chunks50 texts)
    match embedded with
    | none => ⟨.ok none, fs, entries⟩
    | some embs =>
      if failAt = some .atSaveEmbeddings then ⟨.error "IOError", fs, entries⟩
      else
        let fs1 : FS := { fs with embFile := some (.ok embs) }
        if failAt = some .atWriteIndex then ⟨.error "IOError", fs1, entries⟩
        else
          let fs2 : FS := { fs1 with idxFile := some (.ok embs) }
          let entries2 := entries.map fun e => { e with meta := setCity e.meta e.city }
          let metadata := entries2.map (·.meta)
          if failAt = some .atWriteMeta then ⟨.error "IOError", fs2, entries2⟩
          else ⟨.ok (some embs), { fs2 with metaFile := some (.ok metadata) }, entries2⟩

/-- The synchronous decisions of `_ensure_index_is_built`: load (may
raise), return on empty data, return on a complete index, return when
the in-progress flag is set, otherwise launch a build thread.  `.ok b`
reports whether a build thread is launched; the launched thread's effects
are concurrent and modelled separately (`step`). -/
def ensure_decision (src : SourceFile) (fs : FS) (flag : Bool) : Except String Bool :=
  match load_and_normalize_data src with
  | .error e => .error e
  | .ok entries =>
    if entries.isEmpty then .ok false
    else if is_index_complete fs entries then .ok false
    else if flag then .ok false
    else .ok true

/-- `search_k = max(top_k * 5, 20)` (Python ints). -/
def search_k (topK : Int) : Int := max (topK * 5) 20

/-- faiss `IndexFlatL2.search` on the stored rows: the first `k` row ids
in nearest-neighbour order (`ranking`, abstracting the L2 distances of
the stored float vectors to the query), padded with the placeholder `-1`
when the index holds fewer than `k` rows. -/
def faissSearch (ranking : List Nat) (k : Nat) : List Int :=
  (ranking.take k).map Int.ofNat ++ List.replicate (k - min k ranking.length) (-1)

/-- Python list indexing `xs[i]`: negative indices wrap from the end;
out-of-range raises (`none`). -/
def pyGet {α : Type} (xs : List α) (i : Int) : Option α :=
  if 0 ≤ i then xs[i.toNat]?
  else if (-i).toNat ≤ xs.length then xs[(xs.length - (-i).toNat)]?
  else none

/-- `attraction.get('city', '').lower() == destination_city.lower()`. -/
def cityMatch (item : RawItem) (dest : String) : Bool :=
  strLower (getS item.city) == strLower dest

/-- The filtering loop of `search_attractions`: walk the returned
positions in rank order, append the metadata records whose city matches,
and break once the accumulator holds at least `top_k` records (checked
after every candidate). -/
def cityFilterLoop (meta : List RawItem) (dest : String) (topK : Int) :
    List Int → List RawItem → Except String (List RawItem)
  | [], acc => .ok acc
  | i :: rest, acc =>
    match pyGet meta i with
    | none => .error "IndexError"
    | some attraction =>
      let acc2 := if cityMatch attraction dest then acc ++ [attraction] else acc
      if topK ≤ (acc2.length : Int) then .ok acc2
      else cityFilterLoop meta dest topK rest acc2

/-- Environment of one `search_attractions` call: source file, persisted
artifacts, current in-progress flag, offline switch, the provider's
answer for the query embedding, the RNG's query vector, and faiss'
nearest-neighbour order for the stored rows. -/
structure SearchEnv where
  src : SourceFile
  fs : FS
  flag : Bool
  offline : Bool
  queryProvider : Except String Vec
  rngQ : Vec
  ranking : List Nat
  deriving Repr

/-- Step 4 of `search_attractions`: the query embedding — a fresh random
vector offline, otherwise the provider call on the query (unguarded, so a
provider error propagates). -/
def queryEmbed (env : SearchEnv) : Except String Vec :=
  if env.offline then .ok env.rngQ else env.queryProvider

/-- `search_attractions(query, destination_city, top_k)`: trigger
`_ensure_index_is_built` (its synchronous part may raise), reload and
re-check completeness (incomplete → `[]`), load the three artifacts,
embed the query, over-fetch `max(top_k * 5, 20)` candidates from faiss,
and filter them by destination city. -/
def search_attractions (env : SearchEnv) (_query destination_city : String)
    (topK : Int) : Except String (List RawItem) :=
  match ensure_decision env.src env.fs env.flag with
  | .error e => .error e
  | .ok _ =>
    match load_and_normalize_data env.src with
    | .error e => .error e
    | .ok entries =>
      if !is_index_complete env.fs entries then .ok []
      else
        match readDisk env.fs.embFile with
        | .error e => .error e
        | .ok _embeddingsNp =>
          match readDisk env.fs.idxFile with
          | .error e => .error e
          | .ok _index =>
            match readDisk env.fs.metaFile with
            | .error e => .error e
            | .ok meta =>
              match queryEmbed env with
              | .error e => .error e
              | .ok _qEmbed =>
                let indices := faissSearch env.ranking (search_k topK).toNat
                cityFilterLoop meta destination_city topK indices []

/-!
## Concurrency model for the build orchestration

`_ensure_index_is_built` and `_run_index_build` share one flag
(`RAG_BUILD_IN_PROGRESS`) and one lock (`RAG_BUILD_LOCK`).  Each lock
acquisition in the source is one atomic action here; everything between
two acquisitions can interleave.  Two callers (both already past the
staleness check against a stale index) and their two spawned worker
threads are modelled.

Caller program counters: 0 = about to run its `with RAG_BUILD_LOCK:
if RAG_BUILD_IN_PROGRESS: return` critical section; 1 = observed the flag
false, about to `thread.start()`; 2 = returned.
Worker program counters: 0 = not spawned; 1 = spawned, about to run
`with RAG_BUILD_LOCK: RAG_BUILD_IN_PROGRESS = True`; 2 = about to run
`build_embeddings` (the embedding-batch sequence); 3 = about to clear the
flag in the `finally` block; 4 = done.
-/

/-- Shared state of the two-caller system.  `builds` counts started
executions of `build_embeddings` (embedding-batch sequences). -/
structure SysState where
  flag : Bool
  builds : Nat
  pcC1 : Nat
  pcC2 : Nat
  pcW1 : Nat
  pcW2 : Nat
  deriving Repr, DecidableEq

/-- Thread identifiers: the two callers of `_ensure_index_is_built` and
the two worker threads running `_run_index_build`. -/
inductive Tid where
  | c1 : Tid
  | c2 : Tid
  | w1 : Tid
  | w2 : Tid
  deriving Repr, DecidableEq

/-- One atomic step of the SOURCE's locking discipline: the caller's
flag check and the worker's flag set are separate critical sections
(the check happens in `_ensure_index_is_built`, the set only later
inside the spawned thread's `_run_index_build`). -/
def step (t : Tid) (s : SysState) : SysState :=
  match t with
  | .c1 =>
    if s.pcC1 = 0 then
      if s.flag then { s with pcC1 := 2 } else { s with pcC1 := 1 }
    else if s.pcC1 = 1 then
      { s with pcC1 := 2, pcW1 := if s.pcW1 = 0 then 1 else s.pcW1 }
    else s
  | .c2 =>
    if s.pcC2 = 0 then
      if s.flag then { s with pcC2 := 2 } else { s with pcC2 := 1 }
    else if s.pcC2 = 1 then
      { s with pcC2 := 2, pcW2 := if s.pcW2 = 0 then 1 else s.pcW2 }
    else s
  | .w1 =>
    if s.pcW1 = 1 then { s with flag := true, pcW1 := 2 }
    else if s.pcW1 = 2 then { s with builds := s.builds + 1, pcW1 := 3 }
    else if s.pcW1 = 3 then { s with flag := false, pcW1 := 4 }
    else s
  | .w2 =>
    if s.pcW2 = 1 then { s with flag := true, pcW2 := 2 }
    else if s.pcW2 = 2 then { s with builds := s.builds + 1, pcW2 := 3 }
    else if s.pcW2 = 3 then { s with flag := false, pcW2 := 4 }
    else s

/-- Run a schedule (an interleaving) from a state. -/
def run (sched : List Tid) (s : SysState) : SysState :=
  sched.foldl (fun st t => step t st) s

/-- Process start: flag false, nothing launched. -/
def startState : SysState := ⟨false, 0, 0, 0, 0, 0⟩

/-- The racing interleaving: both callers execute their check critical
sections before either spawned worker has set the flag. -/
def racySchedule : List Tid := [.c1, .c2, .c1, .c2, .w1, .w2, .w1, .w2]

/-- Modelled from the spec (§5): the locking discipline the spec
prescribes — "check if building" and "mark as building" in ONE critical
section.  The caller's check action sets the flag before releasing; the
worker only builds and clears.  Worker counters: 0 = not spawned,
1 = about to build, 2 = about to clear, 3 = done.  No such code exists in
the source; this is the intended design the claim describes. -/
def stepAtomic (t : Tid) (s : SysState) : SysState :=
  match t with
  | .c1 =>
    if s.pcC1 = 0 then
      if s.flag then { s with pcC1 := 2 } else { s with flag := true, pcC1 := 1 }
    else if s.pcC1 = 1 then
      { s with pcC1 := 2, pcW1 := if s.pcW1 = 0 then 1 else s.pcW1 }
    else s
  | .c2 =>
    if s.pcC2 = 0 then
      if s.flag then { s with pcC2 := 2 } else { s with flag := true, pcC2 := 1 }
    else if s.pcC2 = 1 then
      { s with pcC2 := 2, pcW2 := if s.pcW2 = 0 then 1 else s.pcW2 }
    else s
  | .w1 =>
    if s.pcW1 = 1 then { s with builds := s.builds + 1, pcW1 := 2 }
    else if s.pcW1 = 2 then { s with flag := false, pcW1 := 3 }
    else s
  | .w2 =>
    if s.pcW2 = 1 then { s with builds := s.builds + 1, pcW2 := 2 }
    else if s.pcW2 = 2 then { s with flag := false, pcW2 := 3 }
    else s

/-- Run a schedule under the spec's atomic check-and-set discipline. -/
def runAtomic (sched : List Tid) (s : SysState) : SysState :=
  sched.foldl (fun st t => stepAtomic t st) s

/-- A rebuild of caller 1 is in flight (committed or running, not yet
cleared) under the atomic discipline. -/
def busy1 (s : SysState) : Prop := s.pcC1 = 1 ∨ s.pcW1 = 1 ∨ s.pcW1 = 2

/-- A rebuild of caller 2 is in flight under the atomic discipline. -/
def busy2 (s : SysState) : Prop := s.pcC2 = 1 ∨ s.pcW2 = 1 ∨ s.pcW2 = 2

/-- Inductive invariant of the atomic discipline: spawn linkage plus
mutual exclusion of in-flight rebuilds, with the flag covering them. -/
def AtomicInv (s : SysState) : Prop :=
  (s.pcC1 = 1 → s.pcW1 = 0) ∧ (s.pcC2 = 1 → s.pcW2 = 0) ∧
  (s.pcW1 ≠ 0 → s.pcC1 = 2) ∧ (s.pcW2 ≠ 0 → s.pcC2 = 2) ∧
  ¬(busy1 s ∧ busy2 s) ∧ ((busy1 s ∨ busy2 s) → s.flag = true)

/-!
## Concrete inputs used by witnesses and counterexamples
-/

/-- A metadata record for a Paris attraction. -/
def itemParis : RawItem := { name := some "Louvre", city := some "Paris" }

/-- A second Paris record, stored last in some persisted metadata lists. -/
def itemParisLast : RawItem := { name := some "Eiffel Tower", city := some "Paris" }

/-- A Rome record. -/
def itemRome : RawItem := { name := some "Colosseum", city := some "Rome" }

/-- A second Rome record. -/
def itemRome2 : RawItem := { name := some "Pantheon", city := some "Rome" }

/-- An input entry whose raw metadata has no `city` key yet. -/
def entryNoCity : Entry :=
  { city := "Paris", name := "Louvre", text := "Louvre text", meta := { name := some "Louvre" } }

/-- The all-zero RNG stream (one possible numpy global generator state). -/
def rngZero : Nat → Scalar := fun _ => 0

/-- The all-one RNG stream (another possible generator state). -/
def rngOne : Nat → Scalar := fun _ => 1

/-- A provider that fails on every batch. -/
def provFail : Nat → List String → Except String (List Vec) := fun _ _ => .error "APIError"

/-- A provider that answers every batch (content irrelevant here). -/
def provOk : Nat → List String → Except String (List Vec) := fun _ b => .ok (b.map fun _ => [0])

/-- An empty artifact store. -/
def fsEmpty : FS := ⟨none, none, none⟩

/-- A consistent previously persisted artifact set: two rows, two
metadata records. -/
def fsPrior : FS := ⟨some (.ok [[5], [5]]), some (.ok [[5], [5]]), some (.ok [itemRome, itemParis])⟩

/-- Artifacts where all three files exist and the index reads back with
one row, but the metadata file is corrupt. -/
def fsMetaCorrupt : FS := ⟨some (.ok [[0]]), some (.ok [[0]]), some .corrupt⟩

/-- A source whose normalization yields exactly three entries. -/
def srcThree : SourceFile :=
  .ok [("Rome", [{ name := some "Colosseum" }, { name := some "Pantheon" }]),
       ("Paris", [{ name := some "Louvre" }])]

/-- Persisted artifacts with three rows whose metadata holds two Rome
records and a final Paris record. -/
def fsRRP : FS :=
  ⟨some (.ok [[0], [0], [0]]), some (.ok [[0], [0], [0]]),
   some (.ok [itemRome, itemRome2, itemParisLast])⟩

/-- Persisted artifacts with three rows whose metadata holds Paris, Rome,
and a final Paris record. -/
def fsPRP : FS :=
  ⟨some (.ok [[0], [0], [0]]), some (.ok [[0], [0], [0]]),
   some (.ok [itemParis, itemRome, itemParisLast])⟩

/-- Search environment over `fsRRP`: complete offline index of three
rows, fewer rows than the over-fetch size. -/
def envSmallRRP : SearchEnv :=
  ⟨srcThree, fsRRP, false, true, .ok [], [0], [0, 1, 2]⟩

/-- Search environment over `fsPRP`, likewise only three rows. -/
def envSmallPRP : SearchEnv :=
  ⟨srcThree, fsPRP, false, true, .ok [], [0], [0, 1, 2]⟩

/-- Environment with a missing source file and no artifacts. -/
def envNoData : SearchEnv := ⟨.missing, fsEmpty, false, true, .ok [], [], []⟩

/-- Environment with data but no artifacts (index not yet built). -/
def envUnbuilt : SearchEnv :=
  ⟨.ok [("Paris", [{ name := some "Louvre" }])], fsEmpty, false, true, .ok [], [0], []⟩

/-- A source yielding twenty Paris entries. -/
def srcTwenty : SourceFile := .ok [("Paris", List.replicate 20 { name := some "Louvre" })]

/-- A complete twenty-row artifact set, all records Paris. -/
def fsTwenty : FS :=
  ⟨some (.ok (List.replicate 20 [0])), some (.ok (List.replicate 20 [0])),
   some (.ok (List.replicate 20 itemParis))⟩

/-- Environment whose index holds at least the over-fetch size for
`topK = 1` (twenty rows). -/
def envTwenty : SearchEnv :=
  ⟨srcTwenty, fsTwenty, false, true, .ok [], [0], List.range 20⟩

/-!
## Theorems
-/

/-- Sanity: the pipeline end to end on a tiny complete index. -/
example :
    search_attractions
      { src := .ok [("Paris", [{ name := some "Louvre" }])]
        fs := { embFile := some (.ok [[0]]), idxFile := some (.ok [[0]])
                metaFile := some (.ok [itemParis]) }
        flag := false, offline := true, queryProvider := .ok [], rngQ := [0], ranking := [0] }
      "museums" "Paris" 1 = .ok [itemParis] := by decide

/-- C1: the source checks `RAG_BUILD_IN_PROGRESS` in one critical section
of `_ensure_index_is_built` but sets it only later, in a separate
critical section inside the spawned `_run_index_build`; under the
interleaving in which both callers run their check before either worker
runs its set, both observe the flag false and two embedding-batch
sequences (executions of `build_embeddings`) are started — refuting the
claim that the read and set are atomic together and that at most one
`_run_index_build` is started. -/
theorem C1_racy_flag_two_builds :
    (run racySchedule startState).builds = 2 ∧
    ¬(run racySchedule startState).builds ≤ 1 := by decide

/-- Under the locking discipline the spec prescribes (check-and-set in
one critical section, `stepAtomic`), the invariant is preserved by every
step. -/
theorem stepAtomic_preserves_inv (t : Tid) (s : SysState) (h : AtomicInv s) :
    AtomicInv (stepAtomic t s) := by
  obtain ⟨h1, h2, h3, h4, h5, h6⟩ := h
  unfold busy1 busy2 at h5 h6
  cases t <;>
    simp only [stepAtomic, AtomicInv, busy1, busy2] <;>
    split_ifs <;>
    simp_all

/-- Spec-intent soundness: with the read-then-set atomic, no interleaving
of the two callers ever has two rebuilds in flight at once. -/
theorem atomic_discipline_mutual_exclusion (sched : List Tid) :
    ¬(busy1 (runAtomic sched startState) ∧ busy2 (runAtomic sched startState)) := by
  have key : ∀ (l : List Tid) (s : SysState), AtomicInv s →
      AtomicInv (runAtomic l s) := by
    intro l
    induction l with
    | nil => intro s hs; exact hs
    | cons t ts ih =>
      intro s hs
      exact ih (stepAtomic t s) (stepAtomic_preserves_inv t s hs)
  have hinit : AtomicInv startState := by
    unfold AtomicInv busy1 busy2 startState; simp
  exact (key sched startState hinit).2.2.2.2.1

/-- C4 counterexample: `search_attractions` with `top_k = 0 < 1` raises
nothing — the source has no `top_k` validation; here it returns `[]`
(the index is unavailable, which also shows retrieval-unavailable paths
are reached with invalid `top_k`). -/
theorem C4_counterexample_no_topk_validation :
    search_attractions envNoData "museums" "Paris" 0 = .ok [] := by decide

/-- C5 counterexample: with all three artifact files present, a readable
one-row index, and a CORRUPT metadata file, `_is_index_complete` answers
true although loading the persisted artifact set (the spec's `load`)
fails — `_is_index_complete` only existence-checks the embeddings and
metadata files. -/
theorem C5_counterexample_corrupt_meta :
    is_index_complete fsMetaCorrupt [entryNoCity] = true ∧
    load_spec fsMetaCorrupt = none := ⟨rfl, rfl⟩

/-- C7 counterexample: a present-but-unreadable source file is NOT a soft
failure: `load_and_normalize_data` opens and `json.load`s it with no
handler, so the exception propagates instead of an empty list being
returned. -/
theorem C7_counterexample_unreadable_raises :
    load_and_normalize_data .unreadable = .error "JSONDecodeError" ∧
    load_and_normalize_data .unreadable ≠ .ok [] := ⟨rfl, by decide⟩

/-- C9 counterexample: `build_embeddings` mutates its input records in
place (`item['city'] = entry['city']`): after a successful offline build
the caller's entry list is no longer the one passed in — the metadata
dictionary of the entry gained a `city` key. -/
theorem C9_counterexample_inplace_city :
    (build_embeddings true provOk rngZero none fsEmpty [entryNoCity]).entries ≠
      [entryNoCity] := by decide

set_option maxRecDepth 40000 in
/-- C8 counterexample: offline stand-in vectors are drawn from the
unseeded numpy global generator; two runs of `build_embeddings` on the
same entry list with different generator states persist different
vectors, so offline builds are not reproducible across runs. -/
theorem C8_counterexample_rng_dependent :
    (build_embeddings true provOk rngZero none fsEmpty [entryNoCity]).fs.embFile ≠
      (build_embeddings true provOk rngOne none fsEmpty [entryNoCity]).fs.embFile := by decide

set_option maxRecDepth 40000 in
/-- C2 counterexample: a failure injected at the metadata write (after
vector generation, after `np.save` and `faiss.write_index`) leaves a TORN
artifact set: the embeddings file has been replaced while the metadata
file still holds the previous list; a subsequent `load` observes a
one-row index paired with two metadata records. -/
theorem C2_counterexample_torn_write :
    (build_embeddings true provOk rngZero (some .atWriteMeta) fsPrior [entryNoCity]).result =
      .error "IOError" ∧
    (build_embeddings true provOk rngZero (some .atWriteMeta) fsPrior [entryNoCity]).fs.embFile ≠
      fsPrior.embFile ∧
    (build_embeddings true provOk rngZero (some .atWriteMeta) fsPrior [entryNoCity]).fs.metaFile =
      fsPrior.metaFile ∧
    ∃ idxMeta,
      load_spec (build_embeddings true provOk rngZero (some .atWriteMeta) fsPrior [entryNoCity]).fs =
        some idxMeta ∧ idxMeta.1.length ≠ idxMeta.2.length := by
  refine ⟨rfl, by decide, rfl, ⟨([randVec rngZero 0], [itemRome, itemParis]), rfl, by decide⟩⟩

/-- C3 counterexample: with a COMPLETE index of only three rows (fewer
than the over-fetch size 20) and a single matching candidate stored last,
the faiss placeholder `-1` positions select `meta[-1]` repeatedly, so the
call returns three copies of the single match instead of "exactly the
matches found". -/
theorem C3_counterexample_small_index :
    search_attractions envSmallRRP "museums" "Paris" 3 =
      .ok [itemParisLast, itemParisLast, itemParisLast] ∧
    (((envSmallRRP.ranking.take (search_k 3).toNat).filterMap
        fun i => [itemRome, itemRome2, itemParisLast][i]?).filter
        fun a => cityMatch a "Paris") = [itemParisLast] ∧
    search_attractions envSmallRRP "museums" "Paris" 3 ≠ .ok [itemParisLast] := by
  refine ⟨by decide, by decide, by decide⟩

/-- C10: with a complete three-row index and over-fetch size 25, faiss
pads the returned positions with the placeholder `-1`; indexing the
metadata list with `-1` selects the LAST record (Python negative
indexing), which enters the result and is duplicated — candidate
positions used are not all in `[0, len(meta))`. -/
theorem C10_placeholder_selects_last :
    (-1 : Int) ∈ faissSearch envSmallPRP.ranking (search_k 5).toNat ∧
    search_attractions envSmallPRP "museums" "Paris" 5 =
      .ok [itemParis, itemParisLast, itemParisLast, itemParisLast, itemParisLast] := by
  refine ⟨by decide, by decide⟩

/-!
## Helper lemmas (shared)
-/

/-- Each batch of the batching loop is the Python slice `texts[i:i+50]`
with `i = 50 * j` (and positions past the last batch are empty slices on
both sides). -/
theorem chunks50_getD (texts : List String) : ∀ j : Nat,
    (chunks50 texts).getD j [] = (texts.drop (50 * j)).take 50 := by
  induction texts using chunks50.induct with
  | case1 => intro j; simp [chunks50]
  | case2 t ts ih =>
    intro j
    cases j with
    | zero => simp [chunks50]
    | succ j =>
      have h50 : 50 * (j + 1) = 50 + 50 * j := by omega
      simp only [chunks50, List.getD_cons_succ, ih j, List.drop_drop, h50]

/-- If some batch makes the provider raise, the batching loop yields
`None`. -/
theorem embedBatches_err (provider : Nat → List String → Except String (List Vec)) :
    ∀ (bs : List (List String)) (j : Nat),
    (∃ i, i < bs.length ∧ isErr (provider (j + i) (bs.getD i [])) = true) →
    embedBatches provider j bs = none := by
  intro bs
  induction bs with
  | nil => intro j ⟨i, hi, _⟩; simp at hi
  | cons b rest ih =>
    intro j ⟨i, hi, herr⟩
    cases hcall : provider j b with
    | error e => simp [embedBatches, hcall]
    | ok vs =>
      cases i with
      | zero => simp [hcall, isErr] at herr
      | succ i =>
        have : embedBatches provider (j + 1) rest = none := by
          refine ih (j + 1) ⟨i, by simpa using hi, ?_⟩
          have : j + 1 + i = j + (i + 1) := by omega
          simpa [this] using herr
        simp [embedBatches, hcall, this]

/-- Characterization of `_is_index_complete`: the three files exist, the
index file reads back, and its row count equals the entry count. -/
theorem is_index_complete_iff (fs : FS) (entries : List Entry) :
    is_index_complete fs entries = true ↔
      fs.embFile.isSome = true ∧ fs.metaFile.isSome = true ∧
      ∃ v, fs.idxFile = some (.ok v) ∧ v.length = entries.length := by
  obtain ⟨emb, idx, m⟩ := fs
  cases idx with
  | none => simp [is_index_complete]
  | some d =>
    cases d with
    | corrupt =>
      cases emb <;> cases m <;> simp [is_index_complete]
    | ok v =>
      cases emb <;> cases m <;> simp [is_index_complete, Nat.beq_eq_true_eq]

/-- Whatever the source loads to, the synchronous part of
`_ensure_index_is_built` returns normally (it only raises when the load
raises). -/
theorem ensure_decision_ok (src : SourceFile) (fs : FS) (flag : Bool)
    (entries : List Entry) (h : load_and_normalize_data src = .ok entries) :
    ∃ b, ensure_decision src fs flag = .ok b := by
  unfold ensure_decision
  rw [h]
  dsimp only
  split_ifs <;> exact ⟨_, rfl⟩

/-- faiss always returns exactly `k` positions (padding included). -/
theorem faissSearch_length (ranking : List Nat) (k : Nat) :
    (faissSearch ranking k).length = k := by
  simp [faissSearch]

/-- Python indexing at a nonnegative index is plain list indexing. -/
theorem pyGet_ofNat {α : Type} (xs : List α) (i : Nat) :
    pyGet xs (Int.ofNat i) = xs[i]? := by
  simp [pyGet]

/-- The filtering loop on in-bounds positions: while fewer than `topK`
matches are collected it appends the matching records in order and stops
exactly at `topK`; equivalently it returns the accumulated prefix plus
the first `topK - |acc|` matches among the walked candidates. -/
theorem cityFilterLoop_take (meta : List RawItem) (dest : String) (topK : Int)
    (is : List Nat) : ∀ acc : List RawItem,
    (∀ i ∈ is, i < meta.length) → ((acc.length : Int) < topK) →
    cityFilterLoop meta dest topK (is.map Int.ofNat) acc =
      .ok (acc ++
        (((is.filterMap fun i => meta[i]?).filter fun a => cityMatch a dest).take
          (topK.toNat - acc.length))) := by
  induction is with
  | nil =>
    intro acc _ _
    simp [cityFilterLoop]
  | cons i rest ih =>
    intro acc hb hacc
    have hi : i < meta.length := hb i (List.mem_cons_self i rest)
    have hget : meta[i]? = some meta[i] := List.getElem?_eq_getElem hi
    have hbrest : ∀ n ∈ rest, n < meta.length := fun n hn => hb n (List.mem_cons_of_mem i hn)
    simp only [List.map_cons, cityFilterLoop, pyGet_ofNat, hget, List.filterMap_cons]
    rcases Bool.eq_false_or_eq_true (cityMatch meta[i] dest) with hm | hm
    · rw [if_pos hm]
      have hfilter :
          List.filter (fun a => cityMatch a dest)
              (meta[i] :: List.filterMap (fun n => meta[n]?) rest) =
            meta[i] :: List.filter (fun a => cityMatch a dest)
              (List.filterMap (fun n => meta[n]?) rest) := by
        simp [hm]
      rw [hfilter]
      have hlen : (acc ++ [meta[i]]).length = acc.length + 1 := by simp
      rw [hlen]
      by_cases hstop : topK ≤ ((acc.length + 1 : Nat) : Int)
      · rw [if_pos hstop]
        have h1 : topK.toNat - acc.length = 1 := by omega
        rw [h1, List.take_succ_cons, List.take_zero]
      · rw [if_neg hstop]
        have hlt : (((acc ++ [meta[i]]).length : Nat) : Int) < topK := by
          rw [hlen]
          omega
        rw [ih (acc ++ [meta[i]]) hbrest hlt, hlen]
        have hsplit : topK.toNat - acc.length = (topK.toNat - (acc.length + 1)) + 1 := by
          omega
        rw [hsplit, List.take_succ_cons]
        simp [List.append_assoc]
    · have hneg : ¬(cityMatch meta[i] dest = true) := by simp [hm]
      rw [if_neg hneg]
      have hfilter :
          List.filter (fun a => cityMatch a dest)
              (meta[i] :: List.filterMap (fun n => meta[n]?) rest) =
            List.filter (fun a => cityMatch a dest)
              (List.filterMap (fun n => meta[n]?) rest) := by
        simp [hm]
      rw [hfilter]
      have hstop : ¬(topK ≤ ((acc.length : Nat) : Int)) := by omega
      rw [if_neg hstop, ih acc hbrest hacc]

/-- If the batching loop yields `None`, the whole build returns `None`
and leaves the file system and the caller's entries untouched. -/
theorem build_embeddings_none_of_embed_none
    (provider : Nat → List String → Except String (List Vec)) (rng : Nat → Scalar)
    (failAt : Option WritePoint) (fs : FS) (entries : List Entry)
    (h : embedBatches provider 0 (chunks50 (entries.map (·.text))) = none) :
    build_embeddings false provider rng failAt fs entries = ⟨.ok none, fs, entries⟩ := by
  by_cases hempty : entries.isEmpty
  · simp [build_embeddings, hempty]
  · simp [build_embeddings, hempty, h]

/-!
## Claim theorems (continued)
-/

/-- C6: embedding generation is all-or-nothing over 50-batches — the
batches are exactly the slices `texts[50j : 50j+50]`, and if the provider
raises on any batch the whole `build_embeddings` returns `None` with the
file system untouched and the entries unmutated (nothing persisted, no
partial vector list). -/
theorem C6_batching_all_or_nothing :
    (∀ (texts : List String) (j : Nat),
        (chunks50 texts).getD j [] = (texts.drop (50 * j)).take 50) ∧
    (∀ (provider : Nat → List String → Except String (List Vec))
        (rng : Nat → Scalar) (failAt : Option WritePoint) (fs : FS) (entries : List Entry),
        (∃ i, i < (chunks50 (entries.map (·.text))).length ∧
            isErr (provider i ((chunks50 (entries.map (·.text))).getD i [])) = true) →
        build_embeddings false provider rng failAt fs entries = ⟨.ok none, fs, entries⟩) := by
  refine ⟨chunks50_getD, ?_⟩
  intro provider rng failAt fs entries hex
  refine build_embeddings_none_of_embed_none provider rng failAt fs entries ?_
  refine embedBatches_err provider _ 0 ?_
  simpa using hex

/-- C6 witness: one entry, one batch, a provider that raises on it — the
build returns `None` and changes nothing. -/
theorem C6_batching_all_or_nothing_witness :
    build_embeddings false provFail rngZero none fsEmpty [entryNoCity] =
      ⟨.ok none, fsEmpty, [entryNoCity]⟩ :=
  C6_batching_all_or_nothing.2 provFail rngZero none fsEmpty [entryNoCity]
    ⟨0, by simp [chunks50], by simp [chunks50, provFail, isErr]⟩

/-- C2 amended: persistence is not failure-atomic; the artifacts are
rewritten in place, sequentially.  A failure before the first write (any
provider error during embedding) leaves the prior artifact set intact;
but a failure at the metadata write leaves the new vector matrix and new
index on disk paired with the OLD metadata file. -/
theorem C2_persist_not_atomic :
    (∀ (provider : Nat → List String → Except String (List Vec)) (rng : Nat → Scalar)
        (failAt : Option WritePoint) (fs : FS) (entries : List Entry),
        embedBatches provider 0 (chunks50 (entries.map (·.text))) = none →
        build_embeddings false provider rng failAt fs entries = ⟨.ok none, fs, entries⟩) ∧
    (∀ (provider : Nat → List String → Except String (List Vec)) (rng : Nat → Scalar)
        (fs : FS) (e : Entry) (rest : List Entry),
        build_embeddings true provider rng (some .atWriteMeta) fs (e :: rest) =
          ⟨.error "IOError",
           { fs with
              embFile :=
                some (.ok ((List.range ((e :: rest).map (·.text)).length).map (randVec rng)))
              idxFile :=
                some (.ok ((List.range ((e :: rest).map (·.text)).length).map (randVec rng))) },
           (e :: rest).map fun x => { x with meta := setCity x.meta x.city }⟩) := by
  refine ⟨fun provider rng failAt fs entries h =>
    build_embeddings_none_of_embed_none provider rng failAt fs entries h, ?_⟩
  intro provider rng fs e rest
  rfl

/-- C2 witness: a provider failure leaves the previously persisted
artifact set exactly as it was. -/
theorem C2_persist_not_atomic_witness :
    build_embeddings false provFail rngZero none fsPrior [entryNoCity] =
      ⟨.ok none, fsPrior, [entryNoCity]⟩ :=
  C2_persist_not_atomic.1 provFail rngZero none fsPrior [entryNoCity]
    (by simp [chunks50, embedBatches, provFail])

/-- C9 amended: normalization and search are read-only, but
`build_embeddings` updates each input record's metadata in place, setting
its `city` field to the entry's city; every other field is preserved. -/
theorem C9_build_mutates_city_only :
    (∀ (provider : Nat → List String → Except String (List Vec)) (rng : Nat → Scalar)
        (fs : FS) (e : Entry) (rest : List Entry),
        (build_embeddings true provider rng none fs (e :: rest)).entries =
          (e :: rest).map fun x => { x with meta := setCity x.meta x.city }) ∧
    (∀ (m : RawItem) (c : String),
        (setCity m c).name = m.name ∧ (setCity m c).description = m.description ∧
        (setCity m c).category = m.category ∧ (setCity m c).rating = m.rating ∧
        (setCity m c).reviews = m.reviews ∧ (setCity m c).city = some c) := by
  refine ⟨fun provider rng fs e rest => rfl,
    fun m c => ⟨rfl, rfl, rfl, rfl, rfl, rfl⟩⟩

/-- C8 amended: offline mode never contacts the provider (builds and
searches are invariant under changing it) and produces stand-in vectors
of dimension 1536; but the vectors are a function of the RNG stream
(the unseeded numpy global generator), so they are not reproducible
across runs — see the counterexample. -/
theorem C8_offline_no_network_fixed_dimension :
    (∀ (p1 p2 : Nat → List String → Except String (List Vec)) (rng : Nat → Scalar)
        (failAt : Option WritePoint) (fs : FS) (entries : List Entry),
        build_embeddings true p1 rng failAt fs entries =
          build_embeddings true p2 rng failAt fs entries) ∧
    (∀ (provider : Nat → List String → Except String (List Vec)) (rng : Nat → Scalar)
        (fs : FS) (e : Entry) (rest : List Entry),
        (build_embeddings true provider rng none fs (e :: rest)).result =
          .ok (some ((List.range ((e :: rest).map (·.text)).length).map (randVec rng))) ∧
        ∀ v ∈ (List.range ((e :: rest).map (·.text)).length).map (randVec rng),
          v.length = 1536) ∧
    (∀ (src : SourceFile) (fs : FS) (flag : Bool) (rngQ : Vec) (ranking : List Nat)
        (q1 q2 : Except String Vec) (query dest : String) (topK : Int),
        search_attractions ⟨src, fs, flag, true, q1, rngQ, ranking⟩ query dest topK =
          search_attractions ⟨src, fs, flag, true, q2, rngQ, ranking⟩ query dest topK) := by
  refine ⟨fun p1 p2 rng failAt fs entries => rfl, ?_, fun src fs flag rngQ ranking q1 q2 query dest topK => rfl⟩
  intro provider rng fs e rest
  refine ⟨rfl, ?_⟩
  intro v hv
  obtain ⟨p, _, hp⟩ := List.mem_map.mp hv
  rw [← hp]
  simp [randVec]

/-- C8 witness: changing the provider does not change an offline build,
and the concrete stand-in vector drawn at position 0 has dimension
1536. -/
theorem C8_offline_no_network_fixed_dimension_witness :
    build_embeddings true provFail rngZero none fsEmpty [entryNoCity] =
      build_embeddings true provOk rngZero none fsEmpty [entryNoCity] ∧
    (randVec rngZero 0).length = 1536 :=
  ⟨C8_offline_no_network_fixed_dimension.1 provFail provOk rngZero none fsEmpty [entryNoCity],
   (C8_offline_no_network_fixed_dimension.2.1 provOk rngZero fsEmpty entryNoCity []).2
     (randVec rngZero 0) (by simp)⟩

/-- C7 amended: a MISSING source file is a soft failure — empty list, no
exception, and the subsequent build path is a no-op (no launch, and a
build over zero entries changes nothing) — but an existing unreadable or
unparsable source file raises out of `load_and_normalize_data`. -/
theorem C7_missing_soft_unreadable_raises :
    load_and_normalize_data .missing = .ok [] ∧
    (∀ (fs : FS) (flag : Bool), ensure_decision .missing fs flag = .ok false) ∧
    (∀ (offline : Bool) (provider : Nat → List String → Except String (List Vec))
        (rng : Nat → Scalar) (failAt : Option WritePoint) (fs : FS),
        build_embeddings offline provider rng failAt fs [] = ⟨.ok none, fs, []⟩) ∧
    load_and_normalize_data .unreadable = .error "JSONDecodeError" := by
  refine ⟨rfl, fun fs flag => rfl, fun offline provider rng failAt fs => rfl, rfl⟩

/-- C5 amended: `_is_index_complete(entries)` is true iff all three
artifact files EXIST, the index file loads back, and its row count equals
`len(entries)` — the embeddings and metadata files are only checked for
existence, so a present-but-corrupt one still passes (see the
counterexample).  Consequently after a successful offline build of the
entries `e :: rest` it answers exactly "current entry count equals built
count". -/
theorem C5_completeness_structural :
    (∀ (fs : FS) (entries : List Entry),
        is_index_complete fs entries = true ↔
          (fs.embFile.isSome = true ∧ fs.metaFile.isSome = true ∧
           ∃ v, fs.idxFile = some (.ok v) ∧ v.length = entries.length)) ∧
    (∀ (provider : Nat → List String → Except String (List Vec)) (rng : Nat → Scalar)
        (fs : FS) (e : Entry) (rest : List Entry) (es : List Entry),
        is_index_complete (build_embeddings true provider rng none fs (e :: rest)).fs es =
          ((e :: rest).length == es.length)) := by
  refine ⟨is_index_complete_iff, ?_⟩
  intro provider rng fs e rest es
  have hfs : (build_embeddings true provider rng none fs (e :: rest)).fs =
      ⟨some (.ok ((List.range ((e :: rest).map (·.text)).length).map (randVec rng))),
       some (.ok ((List.range ((e :: rest).map (·.text)).length).map (randVec rng))),
       some (.ok (((e :: rest).map fun x => { x with meta := setCity x.meta x.city }).map (·.meta)))⟩ :=
    rfl
  rw [hfs]
  simp [is_index_complete]

/-- C4 amended: `search_attractions` performs no `top_k` validation and
never raises for it: whenever the index is incomplete (unavailable,
still building, or corrupt index file) the call returns `[]` for EVERY
`top_k`, including `top_k < 1`.  With readable artifacts and a complete
index, an online query-embedding provider failure propagates as an
exception (unguarded `client.embeddings.create` on the query). -/
theorem C4_no_validation_degraded_empty :
    (∀ (env : SearchEnv) (query dest : String) (topK : Int) (entries : List Entry),
        load_and_normalize_data env.src = .ok entries →
        is_index_complete env.fs entries = false →
        search_attractions env query dest topK = .ok []) ∧
    (∀ (env : SearchEnv) (query dest : String) (topK : Int) (entries : List Entry)
        (emb idx : List Vec) (meta : List RawItem) (err : String),
        load_and_normalize_data env.src = .ok entries →
        env.fs.embFile = some (.ok emb) →
        env.fs.idxFile = some (.ok idx) →
        env.fs.metaFile = some (.ok meta) →
        idx.length = entries.length →
        env.offline = false →
        env.queryProvider = .error err →
        search_attractions env query dest topK = .error err) := by
  constructor
  · intro env query dest topK entries hload hcomp
    obtain ⟨b, hb⟩ := ensure_decision_ok env.src env.fs env.flag entries hload
    simp [search_attractions, hb, hload, hcomp]
  · intro env query dest topK entries emb idx meta err hload hemb hidx hmeta hcount hoff hq
    have hcomp : is_index_complete env.fs entries = true := by
      rw [is_index_complete_iff]
      exact ⟨by simp [hemb], by simp [hmeta], idx, hidx, hcount⟩
    obtain ⟨b, hb⟩ := ensure_decision_ok env.src env.fs env.flag entries hload
    simp [search_attractions, hb, hload, hcomp, hemb, hidx, hmeta, readDisk, queryEmbed, hoff, hq]

/-- C4 witness: data present, index not yet built — no exception, empty
result, for a valid `top_k`. -/
theorem C4_no_validation_degraded_empty_witness :
    search_attractions envUnbuilt "museums" "Paris" 1 = .ok [] :=
  C4_no_validation_degraded_empty.1 envUnbuilt "museums" "Paris" 1
    (normalizeData [("Paris", [{ name := some "Louvre" }])]) rfl rfl

/-- C3 amended: with a complete index holding AT LEAST `max(top_k*5,20)`
rows (so that faiss returns no `-1` padding; otherwise see the
counterexample), a readable artifact set, aligned metadata, in-bounds
rank order and a successful query embedding, `search_attractions`
requests exactly `max(top_k*5, 20)` candidates and returns the first
matches in rank order stopped at `top_k`: the first `top_k` of the
city-filtered candidate list, hence at most `top_k` records, every one
matching the destination city case-insensitively, with no retry or
widening. -/
theorem C3_overfetch_filter (env : SearchEnv) (query dest : String) (topK : Int)
    (entries : List Entry) (emb idx : List Vec) (meta : List RawItem)
    (hload : load_and_normalize_data env.src = .ok entries)
    (hemb : env.fs.embFile = some (.ok emb))
    (hidx : env.fs.idxFile = some (.ok idx))
    (hmeta : env.fs.metaFile = some (.ok meta))
    (hcount : idx.length = entries.length)
    (hrank : ∀ i ∈ env.ranking, i < meta.length)
    (hbig : (search_k topK).toNat ≤ env.ranking.length)
    (hk : 1 ≤ topK)
    (q : Vec) (hq : queryEmbed env = .ok q) :
    search_attractions env query dest topK =
      .ok ((((env.ranking.take (search_k topK).toNat).filterMap fun n => meta[n]?).filter
          fun a => cityMatch a dest).take topK.toNat) ∧
    ((((env.ranking.take (search_k topK).toNat).filterMap fun n => meta[n]?).filter
        fun a => cityMatch a dest).take topK.toNat).length ≤ topK.toNat ∧
    (∀ a ∈ (((env.ranking.take (search_k topK).toNat).filterMap fun n => meta[n]?).filter
        fun a => cityMatch a dest).take topK.toNat, cityMatch a dest = true) ∧
    (faissSearch env.ranking (search_k topK).toNat).length = (search_k topK).toNat := by
  have hcomp : is_index_complete env.fs entries = true := by
    rw [is_index_complete_iff]
    exact ⟨by simp [hemb], by simp [hmeta], idx, hidx, hcount⟩
  obtain ⟨b, hb⟩ := ensure_decision_ok env.src env.fs env.flag entries hload
  have hfa : faissSearch env.ranking (search_k topK).toNat =
      (env.ranking.take (search_k topK).toNat).map Int.ofNat := by
    unfold faissSearch
    have hz : (search_k topK).toNat - min (search_k topK).toNat env.ranking.length = 0 := by
      omega
    rw [hz]
    simp
  have hbounds : ∀ i ∈ env.ranking.take (search_k topK).toNat, i < meta.length :=
    fun i hi => hrank i (List.take_subset _ _ hi)
  have hacc0 : ((([] : List RawItem).length : Nat) : Int) < topK := by
    simp only [List.length_nil]
    omega
  have hloop := cityFilterLoop_take meta dest topK (env.ranking.take (search_k topK).toNat)
    [] hbounds hacc0
  refine ⟨?_, ?_, ?_, faissSearch_length env.ranking (search_k topK).toNat⟩
  · simp only [search_attractions, hb, hload, hcomp, hemb, hidx, hmeta, readDisk, hq, hfa,
      Bool.not_true, Bool.false_eq_true, if_false, hloop, List.nil_append, List.length_nil,
      Nat.sub_zero]
  · rw [List.length_take]
    omega
  · intro a ha
    have ha2 : a ∈ List.filter (fun x => cityMatch x dest)
        (List.filterMap (fun n => meta[n]?) (List.take (search_k topK).toNat env.ranking)) :=
      List.mem_of_mem_take ha
    exact (List.mem_filter.mp ha2).2

/-- C3 witness: twenty Paris rows, `top_k = 1`: the search requests
`max(5, 20) = 20` candidates and returns the first match. -/
theorem C3_overfetch_filter_witness :
    search_attractions envTwenty "museums" "Paris" 1 =
      .ok (((((List.range 20).take (search_k 1).toNat).filterMap
          fun n => (List.replicate 20 itemParis)[n]?).filter
          fun a => cityMatch a "Paris").take (1 : Int).toNat) :=
  (C3_overfetch_filter envTwenty "museums" "Paris" 1
    (normalizeData [("Paris", List.replicate 20 { name := some "Louvre" })])
    (List.replicate 20 [0]) (List.replicate 20 [0]) (List.replicate 20 itemParis)
    rfl rfl rfl rfl (by decide) (by decide) (by decide) (by decide) [0] rfl).1

end RagEngine
